import Mathlib

/-!
Verification of the spinoff Node/Hub addressing core (`src/spinoff/actor/node.py`)
and the subprocess utility (`src/unnamedframework/util/process.py`) against the
natural-language specification.

The Python source is embedded shallowly: pure routing logic becomes Lean
functions; side effects (tells, event-log emissions, guardian/hub stops,
process spawns) become explicit effect lists; Python exceptions become an
`Except` result with an error enumeration.  The `Uri` value type lives in
`spinoff/actor/uri.py`, which is not under `src/`; it is modelled from the
spec (see its doc comment).  The `Guardian` and `Hub` collaborators are
external to the core per the spec and are represented by their interfaces.
-/

/-- Modelled from the spec: `spinoff/actor/uri.py` is not under `src/`.  Spec §3:
"Uri — immutable: `node: optional NodeId`, `path: ordered sequence of name
segments`, `root: bool` (true if path is the empty/root segment list)"; §6 gives
the address grammar `[<node-id>]<path>` with `/`-delimited name segments, where
absence of a node id means "unspecified". -/
structure Uri where
  node : Option String
  segs : List String
  deriving DecidableEq

/-- Spec §3: `root` is true iff the path segment list is empty. -/
def Uri.root (u : Uri) : Bool := u.segs.isEmpty

/-- Splits a character list on the slash character; the pieces are returned in
order and the list of pieces is never empty (an empty input yields one empty
piece).  Used to model `Uri.parse` over the spec's address grammar. -/
def splitSlash : List Char → List (List Char)
  | [] => [[]]
  | c :: cs =>
    if c = '/' then [] :: splitSlash cs
    else
      match splitSlash cs with
      | [] => [[c]]
      | p :: ps => (c :: p) :: ps

/-- Modelled from the spec (§6 address grammar `[<node-id>]<path>`): everything
before the first slash is the node id (absent when empty), and the remaining
`/`-delimited nonempty pieces are the path segments. -/
def Uri.parse (s : String) : Uri :=
  match (splitSlash s.data).map String.mk with
  | [] => { node := none, segs := [] }
  | nodePart :: rest =>
    { node := if nodePart = "" then none else some nodePart,
      segs := rest.filter (fun seg => seg != "") }

/-- A local actor cell, opaque to this core (the Guardian owns cells); only its
identity matters here, so it is represented by a name. -/
abbrev Cell := String

/-- Embedding of `spinoff.actor.ref.Ref` as used by `node.py`: the constructor
calls `Ref(cell=..., uri=..., is_local=..., node=...)`.  The `node=self`
argument (the Node object a remote ref routes through) is represented by that
node's `nid`. -/
structure Ref where
  cell : Option Cell
  uri : Uri
  is_local : Bool
  node : Option String
  deriving DecidableEq

/-- The Python exceptions that the embedded code can raise or propagate.
`invalidUri` and `nodeStopped` are the names the spec's error taxonomy (§7,
§8) uses for errors it expects; the source never raises either, and they are
included so that spec-level claims about them are statable.  `attributeNone`
is the `AttributeError` raised when Python dereferences an attribute on
`None` (e.g. `self._hub.send_message` after `stop()` cleared `_hub`). -/
inductive PyError
  | lookupFailed
  | typeError
  | invalidUri
  | attributeNone
  | nodeStopped
  | picklingError (msg : String)
  | assertionError
  deriving DecidableEq

/-- Messages as pattern-matched by `node.py`: the watch/termination protocol
pairs `('_watched', w)`, `('_unwatched', w)`, `('terminated', r)`,
`('_node_down', nid)`, and every other message shape collapsed to `other`. -/
inductive Message
  | watched (watcher : Ref)
  | unwatched (watcher : Ref)
  | terminated (ref : Ref)
  | nodeDown (nid : String)
  | other (payload : String)
  deriving DecidableEq

/-- Embedding of `_Msg` (node.py): the outgoing envelope pairing the
destination `Ref` with the message. -/
structure Msg where
  ref : Ref
  msg : Message
  deriving DecidableEq

/-- Observable side effects of the embedded code: `tell` is `ref << message`,
the two `log` effects are `Events.log(DeadLetter(...))` and
`Events.log(RemoteDeadLetter(...))`, `cellReceive` is `cell.receive(message)`,
`hubSend` is `self._hub.send_message(...)`, and the two stop effects are
`self.guardian.stop()` and `self._hub.stop()`. -/
inductive Effect
  | tell (target : Ref) (msg : Message)
  | logDeadLetter (ref : Ref) (msg : Message)
  | logRemoteDeadLetter (ref : Ref) (msg : Message) (from_ : String)
  | cellReceive (cell : Cell) (msg : Message)
  | hubSend (nodeId : Option String) (m : Msg)
  | stopGuardian
  | stopHub
  deriving DecidableEq

/-- Interface of the external `Guardian` collaborator as consumed by
`node.py`: `lookup_ref(uri)` (may fail with `LookupFailed`), and
`lookup_cell(uri)` (a cell or `None`). -/
structure Guardian where
  lookup_ref : Uri → Except PyError Ref
  lookup_cell : Uri → Option Cell

/-- Embedding of the `Node` state: `nid`, the `guardian` reference and the
`_hub` reference (both cleared — set to `None` — by `stop()`).  The hub is
external; only its presence matters to the embedded code paths. -/
structure Node where
  nid : Option String
  guardian : Option Guardian
  hub : Option Unit

/-- Python truthiness test for an optional string: `not x` is true exactly
when `x` is `None` or the empty string. -/
def pyFalsy (o : Option String) : Bool := o.getD "" == ""

deriving instance DecidableEq for Except

/-- Embedding of `Node.lookup` (node.py lines 39–51).  The Python handler
clause `except LookupFailed if uri.node else None:` evaluates its class
expression at catch time: when `uri.node` is truthy it catches `LookupFailed`
and returns a dead local Ref; when `uri.node` is falsy the clause is
`except None:`, which in CPython 2 matches no exception, so the error
propagates.  A cleared guardian (`None` after `stop()`) raises
`AttributeError` at the `self.guardian.lookup_ref` dereference. -/
def Node.lookup (n : Node) (uri : Uri) : Except PyError Ref :=
  if pyFalsy uri.node = true ∨ uri.node = n.nid then
    match n.guardian with
    | none => .error .attributeNone
    | some g =>
      match g.lookup_ref uri with
      | .ok r => .ok r
      | .error e =>
        if e = .lookupFailed ∧ pyFalsy uri.node = false then
          .ok { cell := none, uri := uri, is_local := true, node := none }
        else
          .error e
  else if uri.root = false then
    .error .typeError
  else
    .ok { cell := none, uri := uri, is_local := false, node := n.nid }

/-- Shared guardian stub for concrete instantiations: no actor exists, every
ref lookup fails with `LookupFailed` and every cell lookup returns `None`. -/
def gEmpty : Guardian :=
  { lookup_ref := fun _ => .error .lookupFailed
    lookup_cell := fun _ => none }

/-- Concrete node with nid "A", a live (empty) guardian and a live hub. -/
def nodeA : Node := { nid := some "A", guardian := some gEmpty, hub := some () }

/-- Claim C1: for a Uri whose node component explicitly (non-falsily) equals
the Node's own nid, if the guardian's `lookup_ref` fails with `LookupFailed`,
then `Node.lookup` returns a dead local Ref — cell absent, `is_local` true,
uri equal to the requested uri — instead of propagating the failure. -/
theorem lookup_local_failure_returns_dead_ref (n : Node) (g : Guardian) (uri : Uri)
    (hf : pyFalsy uri.node = false) (he : uri.node = n.nid)
    (hg : n.guardian = some g) (hl : g.lookup_ref uri = .error .lookupFailed) :
    Node.lookup n uri = .ok { cell := none, uri := uri, is_local := true, node := none } := by
  unfold Node.lookup
  rw [if_pos (Or.inr he), hg]
  simp [hl, hf]

/-- Witness for C1 at a concrete node, guardian and uri. -/
theorem lookup_local_failure_returns_dead_ref_witness :
    Node.lookup nodeA { node := some "A", segs := ["x"] }
      = .ok { cell := none, uri := { node := some "A", segs := ["x"] },
              is_local := true, node := none } :=
  lookup_local_failure_returns_dead_ref nodeA gEmpty { node := some "A", segs := ["x"] }
    (by decide) rfl rfl rfl

/-- Claim C2: for a Uri whose node component is empty (unspecified), a
`LookupFailed` from the guardian is surfaced to the caller: the conditional
handler is `except None:` there, which matches nothing in CPython 2, so the
dead-Ref recovery does not apply. -/
theorem lookup_unspecified_node_surfaces_failure (n : Node) (g : Guardian) (uri : Uri)
    (hu : uri.node = none)
    (hg : n.guardian = some g) (hl : g.lookup_ref uri = .error .lookupFailed) :
    Node.lookup n uri = .error .lookupFailed := by
  unfold Node.lookup
  rw [if_pos (Or.inl (by rw [hu]; rfl)), hg]
  simp [hl, pyFalsy, hu]

/-- Witness for C2 at a concrete node, guardian and uri. -/
theorem lookup_unspecified_node_surfaces_failure_witness :
    Node.lookup nodeA { node := none, segs := ["x"] } = .error .lookupFailed :=
  lookup_unspecified_node_surfaces_failure nodeA gEmpty { node := none, segs := ["x"] }
    rfl rfl rfl

/-- Claim C3 (amended): for a Uri naming a different node than the evaluating
Node, a rooted uri yields a remote Ref (cell absent, `is_local` false) bound
to this Node, and a non-root uri fails — but with `TypeError`, not the spec's
`InvalidUri` (the source raises `TypeError("Node can't look up a relative
Uri...")`). -/
theorem lookup_foreign_node (n : Node) (uri : Uri)
    (h1 : pyFalsy uri.node = false) (h2 : uri.node ≠ n.nid) :
    (uri.root = true →
      Node.lookup n uri = .ok { cell := none, uri := uri, is_local := false, node := n.nid })
    ∧ (uri.root = false → Node.lookup n uri = .error .typeError) := by
  have hcond : ¬ (pyFalsy uri.node = true ∨ uri.node = n.nid) := by
    rintro (h | h)
    · rw [h1] at h; exact Bool.false_ne_true h
    · exact h2 h
  constructor
  · intro hroot
    unfold Node.lookup
    rw [if_neg hcond, hroot]
    simp
  · intro hroot
    unfold Node.lookup
    rw [if_neg hcond, hroot]
    simp

/-- Witness for C3's amended theorem: both branches at concrete uris. -/
theorem lookup_foreign_node_witness :
    Node.lookup nodeA { node := some "B", segs := [] }
      = .ok { cell := none, uri := { node := some "B", segs := [] },
              is_local := false, node := some "A" }
    ∧ Node.lookup nodeA { node := some "B", segs := ["x"] } = .error .typeError :=
  ⟨(lookup_foreign_node nodeA { node := some "B", segs := [] }
      (by decide) (by decide)).1 rfl,
   (lookup_foreign_node nodeA { node := some "B", segs := ["x"] }
      (by decide) (by decide)).2 rfl⟩

/-- Counterexample to claim C3 as stated: at the concrete foreign non-root uri
`B/x`, `Node.lookup` fails with `TypeError`, not with `InvalidUri`. -/
theorem lookup_foreign_nonroot_not_invalid_uri :
    Node.lookup nodeA { node := some "B", segs := ["x"] } = .error .typeError
    ∧ Node.lookup nodeA { node := some "B", segs := ["x"] } ≠ .error .invalidUri := by
  constructor
  · rfl
  · decide

/-- `splitSlash` never returns the empty list of pieces. -/
theorem splitSlash_ne_nil (l : List Char) : splitSlash l ≠ [] := by
  match l with
  | [] => simp [splitSlash]
  | c :: cs =>
    unfold splitSlash
    split
    · simp
    · split <;> simp

/-- Unfolding equation for `splitSlash` on a cons cell. -/
theorem splitSlash_cons (c : Char) (cs : List Char) :
    splitSlash (c :: cs) =
      (if c = '/' then [] :: splitSlash cs
       else
         match splitSlash cs with
         | [] => [[c]]
         | p :: ps => (c :: p) :: ps) := rfl

/-- Splitting `a ++ '/' :: b` on slashes, when `a` is slash-free, yields `a`
as the first piece followed by the pieces of `b`. -/
theorem splitSlash_append (a b : List Char) (ha : ('/' : Char) ∉ a) :
    splitSlash (a ++ '/' :: b) = a :: splitSlash b := by
  induction a with
  | nil => simp [splitSlash]
  | cons c cs ih =>
    have hc : c ≠ '/' := fun h => ha (h ▸ List.mem_cons_self c cs)
    have hcs : ('/' : Char) ∉ cs := fun h => ha (List.mem_cons_of_mem c h)
    rw [List.cons_append, splitSlash_cons, if_neg hc, ih hcs]

/-- Prefixing a slash-leading path string with a slash-free node id and
parsing yields the same path segments, with the node id as the node
component (when nonempty). -/
theorem Uri.parse_append_node (nid lp : String)
    (hn : ('/' : Char) ∉ nid.data) (hlp : lp.data.head? = some '/') :
    (Uri.parse (nid ++ lp)).segs = (Uri.parse lp).segs
    ∧ (Uri.parse (nid ++ lp)).node = (if nid = "" then none else some nid) := by
  obtain ⟨cs, hcs⟩ : ∃ cs, lp.data = '/' :: cs := by
    cases h : lp.data with
    | nil => rw [h] at hlp; exact absurd hlp (by simp)
    | cons c cs =>
      rw [h] at hlp
      simp only [List.head?_cons, Option.some.injEq] at hlp
      exact ⟨cs, by rw [hlp]⟩
  have hdata : (nid ++ lp).data = nid.data ++ '/' :: cs := by
    rw [← hcs]
    exact String.data_append nid lp
  have hmk : String.mk nid.data = nid := by cases nid; rfl
  constructor
  · unfold Uri.parse
    rw [hdata, splitSlash_append nid.data cs hn, hcs]
    simp [splitSlash]
  · unfold Uri.parse
    rw [hdata, splitSlash_append nid.data cs hn]
    simp [hmk]

/-- The guard `msg == ('_unwatched', ANY) or msg == ('_watched', ANY)` shared
by `_Msg.send_failed` and `Node._remote_dead_letter`. -/
def isWatchMsgPair : Message → Bool
  | .unwatched _ => true
  | .watched _ => true
  | _ => false

/-- The membership test `message in (('terminated', ANY), ('_watched', ANY),
('_unwatched', ANY))` from `Node._on_receive`. -/
def isProtocolMsg : Message → Bool
  | .terminated _ => true
  | .watched _ => true
  | .unwatched _ => true
  | _ => false

/-- Recognizes `RemoteDeadLetter` log effects (for counting emissions). -/
def isRemoteDeadLetterEffect : Effect → Bool
  | .logRemoteDeadLetter _ _ _ => true
  | _ => false

/-- Embedding of `Node._remote_dead_letter` (node.py lines 80–83): synthesize
a dead local ref for `nid + path` and log a `RemoteDeadLetter` unless the
message is a watch/unwatch pair. -/
def Node.remote_dead_letter (nid path : String) (msg : Message) (from_ : String) : List Effect :=
  let ref : Ref := { cell := none, uri := Uri.parse (nid ++ path), is_local := true, node := none }
  if isWatchMsgPair msg = false then [.logRemoteDeadLetter ref msg from_] else []

/-- Embedding of `Node._on_receive` (node.py lines 65–78).  The unpickling of
the wire bytes into `(local_path, message)` happens in
`spinoff.remoting.pickler`, outside this core, so the function receives the
decoded pair; `self.guardian` and `self.nid` are passed explicitly (a node
running `_on_receive` has remoting enabled, hence a nid and a live
guardian). -/
def Node.on_receive (g : Guardian) (nid sender_nid local_path : String)
    (message : Message) : List Effect :=
  match g.lookup_cell (Uri.parse local_path) with
  | some cell => [.cellReceive cell message]
  | none =>
    match message with
    | .watched watcher =>
      [.tell watcher (.terminated
        { cell := none, uri := Uri.parse (nid ++ local_path), is_local := true, node := none })]
    | _ =>
      if isProtocolMsg message = true then []
      else Node.remote_dead_letter nid local_path message sender_nid

/-- Embedding of `_Msg.send_failed` (node.py lines 107–109): log a local
`DeadLetter` carrying the original ref and message unless the message is a
watch/unwatch pair. -/
def Msg.send_failed (m : Msg) : List Effect :=
  if isWatchMsgPair m.msg = false then [.logDeadLetter m.ref m.msg] else []

/-- Embedding of `Node.send_message` (node.py lines 56–57): hand
`_Msg(remote_ref, message)` to the hub, addressed to `remote_ref.uri.node`.
A cleared hub (`None` after `stop()`) raises `AttributeError` at the
`self._hub.send_message` dereference. -/
def Node.send_message (n : Node) (message : Message) (remote_ref : Ref) :
    Except PyError Effect :=
  match n.hub with
  | none => .error .attributeNone
  | some _ => .ok (.hubSend remote_ref.uri.node { ref := remote_ref, msg := message })

/-- Embedding of `Node.stop` (node.py lines 85–91): if the guardian reference
is set, stop it and clear it; then likewise for the hub. -/
def Node.stop (n : Node) : Node × List Effect :=
  let p1 : Node × List Effect :=
    match n.guardian with
    | some _ => ({ n with guardian := none }, [.stopGuardian])
    | none => (n, [])
  let p2 : Node × List Effect :=
    match p1.1.hub with
    | some _ => ({ p1.1 with hub := none }, [.stopHub])
    | none => (p1.1, [])
  (p2.1, p1.2 ++ p2.2)

/-- Embedding of `Node.__getstate__` (node.py lines 93–94): always raises
`PicklingError("Node cannot be serialized")`, never yielding a serialized
representation. -/
def Node.getstate (_n : Node) : Except PyError String :=
  .error (.picklingError "Node cannot be serialized")

/-- Shared remote ref for concrete instantiations. -/
def refB : Ref :=
  { cell := none, uri := { node := some "B", segs := [] }, is_local := false, node := some "A" }

/-- Claim C4: dispatching an inbound `('_watched', watcher)` to a path with
no live cell tells the watcher exactly one `('terminated', dead_ref)` where
`dead_ref` is a dead local Ref (cell absent, `is_local` true) for the
requested path qualified with the receiving node's nid; in particular (for a
slash-free nid and a slash-leading path) the dead ref's path segments are
exactly the requested path's segments. -/
theorem on_receive_watched_absent_tells_terminated
    (g : Guardian) (nid sender_nid local_path : String) (watcher : Ref)
    (hcell : g.lookup_cell (Uri.parse local_path) = none) :
    Node.on_receive g nid sender_nid local_path (.watched watcher)
      = [.tell watcher (.terminated
          { cell := none, uri := Uri.parse (nid ++ local_path), is_local := true, node := none })]
    ∧ (('/' : Char) ∉ nid.data → local_path.data.head? = some '/' →
        (Uri.parse (nid ++ local_path)).segs = (Uri.parse local_path).segs) := by
  constructor
  · unfold Node.on_receive
    rw [hcell]
  · intro h1 h2
    exact (Uri.parse_append_node nid local_path h1 h2).1

/-- Witness for C4 at a concrete guardian, nid, path and watcher. -/
theorem on_receive_watched_absent_tells_terminated_witness :
    Node.on_receive gEmpty "A" "B" "/w" (.watched refB)
      = [.tell refB (.terminated
          { cell := none, uri := Uri.parse ("A" ++ "/w"), is_local := true, node := none })]
    ∧ (Uri.parse ("A" ++ "/w")).segs = (Uri.parse "/w").segs :=
  ⟨(on_receive_watched_absent_tells_terminated gEmpty "A" "B" "/w" refB rfl).1,
   (on_receive_watched_absent_tells_terminated gEmpty "A" "B" "/w" refB rfl).2
     (by decide) (by decide)⟩

/-- Claim C5: dispatching an inbound message to a path with no live cell
emits exactly one `RemoteDeadLetter` event — carrying a synthesized dead
local Ref for the nid-qualified target path, the message, and the sender's
node id — unless the message matches `('terminated', _)`, `('_watched', _)`
or `('_unwatched', _)`, in which case no `RemoteDeadLetter` is emitted. -/
theorem on_receive_absent_remote_dead_letter
    (g : Guardian) (nid sender_nid local_path : String) (message : Message)
    (hcell : g.lookup_cell (Uri.parse local_path) = none) :
    (isProtocolMsg message = false →
      Node.on_receive g nid sender_nid local_path message
        = [.logRemoteDeadLetter
            { cell := none, uri := Uri.parse (nid ++ local_path), is_local := true, node := none }
            message sender_nid])
    ∧ (isProtocolMsg message = true →
      (Node.on_receive g nid sender_nid local_path message).filter isRemoteDeadLetterEffect
        = []) := by
  constructor
  · intro hm
    unfold Node.on_receive
    rw [hcell]
    cases message with
    | watched w => simp [isProtocolMsg] at hm
    | unwatched w => simp [isProtocolMsg] at hm
    | terminated r => simp [isProtocolMsg] at hm
    | nodeDown x => simp [isProtocolMsg, Node.remote_dead_letter, isWatchMsgPair]
    | other p => simp [isProtocolMsg, Node.remote_dead_letter, isWatchMsgPair]
  · intro hm
    unfold Node.on_receive
    rw [hcell]
    cases message with
    | watched w => simp [isProtocolMsg, isRemoteDeadLetterEffect]
    | unwatched w => simp [isProtocolMsg]
    | terminated r => simp [isProtocolMsg]
    | nodeDown x => simp [isProtocolMsg] at hm
    | other p => simp [isProtocolMsg] at hm

/-- Witness for C5: an ordinary message yields exactly the one
`RemoteDeadLetter`, a `('terminated', _)` message yields none. -/
theorem on_receive_absent_remote_dead_letter_witness :
    Node.on_receive gEmpty "A" "B" "/w" (.other "ping")
      = [.logRemoteDeadLetter
          { cell := none, uri := Uri.parse ("A" ++ "/w"), is_local := true, node := none }
          (.other "ping") "B"]
    ∧ (Node.on_receive gEmpty "A" "B" "/w" (.terminated refB)).filter isRemoteDeadLetterEffect
        = [] :=
  ⟨(on_receive_absent_remote_dead_letter gEmpty "A" "B" "/w" (.other "ping") rfl).1 rfl,
   (on_receive_absent_remote_dead_letter gEmpty "A" "B" "/w" (.terminated refB) rfl).2 rfl⟩

/-- Claim C6: when an outgoing send fails locally, `_Msg.send_failed` emits
exactly one local `DeadLetter` event carrying the original destination Ref
and the original message, unless the message matches `('_watched', _)` or
`('_unwatched', _)`, in which case no `DeadLetter` is emitted. -/
theorem send_failed_dead_letter (m : Msg) :
    (isWatchMsgPair m.msg = false → Msg.send_failed m = [.logDeadLetter m.ref m.msg])
    ∧ (isWatchMsgPair m.msg = true → Msg.send_failed m = []) := by
  constructor
  · intro h
    simp [Msg.send_failed, h]
  · intro h
    simp [Msg.send_failed, h]

/-- Witness for C6: an ordinary message is dead-lettered, a watch message is
not. -/
theorem send_failed_dead_letter_witness :
    Msg.send_failed { ref := refB, msg := .other "m" } = [.logDeadLetter refB (.other "m")]
    ∧ Msg.send_failed { ref := refB, msg := .watched refB } = [] :=
  ⟨(send_failed_dead_letter { ref := refB, msg := .other "m" }).1 rfl,
   (send_failed_dead_letter { ref := refB, msg := .watched refB }).2 rfl⟩

/-- Claim C7 (amended): `stop()` stops the guardian before the hub and clears
both references; a second `stop()` is a no-op producing no effects and no
error; but after `stop()` there is no defined "node stopped" error: a
`send_message`, or a `lookup` that resolves locally, fails with the
`AttributeError` from dereferencing the cleared `None` reference, while a
`lookup` of a rooted foreign uri still succeeds and returns a remote Ref. -/
theorem node_stop_behavior (n : Node) (g : Guardian)
    (hg : n.guardian = some g) (hh : n.hub = some ()) :
    (Node.stop n).2 = [.stopGuardian, .stopHub]
    ∧ (Node.stop n).1.guardian = none
    ∧ (Node.stop n).1.hub = none
    ∧ Node.stop (Node.stop n).1 = ((Node.stop n).1, [])
    ∧ (∀ message ref, Node.send_message (Node.stop n).1 message ref = .error .attributeNone)
    ∧ (∀ uri : Uri, (pyFalsy uri.node = true ∨ uri.node = n.nid) →
        Node.lookup (Node.stop n).1 uri = .error .attributeNone)
    ∧ (∀ uri : Uri, pyFalsy uri.node = false → uri.node ≠ n.nid → uri.root = true →
        Node.lookup (Node.stop n).1 uri
          = .ok { cell := none, uri := uri, is_local := false, node := n.nid }) := by
  have hstop : Node.stop n
      = ({ n with guardian := none, hub := none }, [.stopGuardian, .stopHub]) := by
    unfold Node.stop
    rw [hg]
    simp [hh]
  rw [hstop]
  refine ⟨rfl, rfl, rfl, ?_, ?_, ?_, ?_⟩
  · unfold Node.stop
    rfl
  · intro message ref
    rfl
  · intro uri hcond
    unfold Node.lookup
    rw [if_pos hcond]
  · intro uri h1 h2 h3
    have hneg : ¬ (pyFalsy uri.node = true ∨ uri.node = n.nid) := by
      rintro (h | h)
      · rw [h1] at h
        exact Bool.false_ne_true h
      · exact h2 h
    unfold Node.lookup
    rw [if_neg hneg, h3]
    simp

/-- Witness for C7's amended theorem at the concrete node `nodeA`. -/
theorem node_stop_behavior_witness :
    (Node.stop nodeA).2 = [.stopGuardian, .stopHub]
    ∧ Node.send_message (Node.stop nodeA).1 (.other "m") refB = .error .attributeNone
    ∧ Node.lookup (Node.stop nodeA).1 { node := some "A", segs := [] }
        = .error .attributeNone :=
  ⟨(node_stop_behavior nodeA gEmpty rfl rfl).1,
   (node_stop_behavior nodeA gEmpty rfl rfl).2.2.2.2.1 (.other "m") refB,
   (node_stop_behavior nodeA gEmpty rfl rfl).2.2.2.2.2.1 { node := some "A", segs := [] }
     (Or.inr rfl)⟩

/-- Counterexample to claim C7 as stated: after `stop()`, `send_message` on
the stopped node fails with the `AttributeError` raised by dereferencing the
cleared `_hub` (`None`) — not with any defined "node stopped" error — and a
`lookup` of a rooted foreign uri does not fail at all. -/
theorem node_stop_claim_counterexample :
    Node.send_message (Node.stop nodeA).1 (.other "m") refB = .error .attributeNone
    ∧ Node.send_message (Node.stop nodeA).1 (.other "m") refB ≠ .error .nodeStopped
    ∧ Node.lookup (Node.stop nodeA).1 { node := some "B", segs := [] }
        = .ok { cell := none, uri := { node := some "B", segs := [] },
                is_local := false, node := some "A" } := by
  refine ⟨rfl, ?_, rfl⟩
  decide

/-- Claim C8: capturing a Node by generic object serialization fails with
`PicklingError`; a Node never produces a serialized representation. -/
theorem node_getstate_pickling_error (n : Node) :
    Node.getstate n = .error (.picklingError "Node cannot be serialized")
    ∧ ∀ s : String, Node.getstate n ≠ .ok s :=
  ⟨rfl, fun _ h => Except.noConfusion h⟩

/-- Witness for C8 at the concrete node `nodeA`. -/
theorem node_getstate_pickling_error_witness :
    Node.getstate nodeA = .error (.picklingError "Node cannot be serialized") :=
  (node_getstate_pickling_error nodeA).1

/-- The allowed termination signals (process.py line 11). -/
def ALLOWED_TERMINATION_SIGNALS : List String := ["KILL", "TERM", "INT"]

/-- Embedding of `os.path.basename` as applied to the executable path: the
last `/`-delimited component. -/
def basename (s : String) : String := (s.splitOn "/").getLastD ""

/-- Embedding of `GenericProcessProtocol` (process.py lines 58–81): the
protocol doubles as the returned deferred; its canceller kills the process
with the configured signal and records `_killed`; stdout and stderr chunks
are accumulated in order of arrival. -/
structure GenericProcessProtocol where
  termination_signal : String
  stdout_output : List String
  stderr_output : List String
  killed : Bool
  deriving DecidableEq

/-- The protocol as built by `GenericProcessProtocol.__init__`. -/
def GenericProcessProtocol.make (termination_signal : String) : GenericProcessProtocol :=
  { termination_signal := termination_signal
    stdout_output := []
    stderr_output := []
    killed := false }

/-- Side effects of the process utility: a `reactor.spawnProcess` call and a
`transport.signalProcess` call. -/
inductive ProcEffect
  | spawnProcess (executable : String) (args : List String)
  | signalProcess (signal : String)
  deriving DecidableEq

/-- Embedding of `spawn_process` (process.py lines 14–51): the assertion on
`termination_signal` runs before anything else, so a disallowed signal
raises `AssertionError` with no spawn effect; otherwise the process is
spawned with `args=[os.path.basename(executable)] + args` and the fresh
protocol (the returned deferred) is produced. -/
def spawn_process (executable : String) (args : List String)
    (termination_signal : String) :
    Except PyError (List ProcEffect × GenericProcessProtocol) :=
  if termination_signal ∈ ALLOWED_TERMINATION_SIGNALS then
    .ok ([.spawnProcess executable (basename executable :: args)],
         GenericProcessProtocol.make termination_signal)
  else
    .error .assertionError

/-- Embedding of `GenericProcessProtocol._kill` (process.py lines 66–68). -/
def GenericProcessProtocol.kill (p : GenericProcessProtocol) (signal_name : String) :
    GenericProcessProtocol × List ProcEffect :=
  ({ p with killed := true }, [.signalProcess signal_name])

/-- Embedding of `outReceived` (process.py lines 77–78). -/
def GenericProcessProtocol.outReceived (p : GenericProcessProtocol) (data : String) :
    GenericProcessProtocol :=
  { p with stdout_output := p.stdout_output ++ [data] }

/-- Embedding of `errReceived` (process.py lines 80–81). -/
def GenericProcessProtocol.errReceived (p : GenericProcessProtocol) (data : String) :
    GenericProcessProtocol :=
  { p with stderr_output := p.stderr_output ++ [data] }

/-- Termination status handed to `processEnded`: the source only tests
`isinstance(status.value, ProcessTerminated)` (a failed exit carrying the
exit code); every other ending is collapsed to `processDone`. -/
inductive ProcStatus
  | processTerminated (exitCode : Int)
  | processDone
  deriving DecidableEq

/-- `ProcessFailed` exception payload: `args` set to the exit code and the
accumulated stderr chunks. -/
structure ProcessFailed where
  exitCode : Int
  stderr : List String
  deriving DecidableEq

/-- Firing of the deferred by `processEnded`: errback with a `ProcessFailed`,
or callback with the accumulated stdout chunks. -/
inductive DeferredFire
  | errback (e : ProcessFailed)
  | callback (stdout : List String)
  deriving DecidableEq

/-- Embedding of `GenericProcessProtocol.processEnded` (process.py lines
70–75): nothing fires if the process was killed (cancelled); otherwise a
`ProcessTerminated` status errbacks with the exit code and stderr chunks and
any other status callbacks with the stdout chunks. -/
def GenericProcessProtocol.processEnded (p : GenericProcessProtocol)
    (status : ProcStatus) : Option DeferredFire :=
  if p.killed = false then
    match status with
    | .processTerminated code => some (.errback { exitCode := code, stderr := p.stderr_output })
    | .processDone => some (.callback p.stdout_output)
  else
    none

/-- Claim C9: `spawn_process` raises `AssertionError` before any process is
spawned when the termination signal is not one of KILL, TERM, INT; for those
three values the assertion passes and the process is spawned. -/
theorem spawn_process_signal_assertion (executable : String) (args : List String)
    (sig : String) :
    (sig ∉ ALLOWED_TERMINATION_SIGNALS →
      spawn_process executable args sig = .error .assertionError)
    ∧ (sig ∈ ALLOWED_TERMINATION_SIGNALS →
      spawn_process executable args sig
        = .ok ([.spawnProcess executable (basename executable :: args)],
               GenericProcessProtocol.make sig)) := by
  constructor
  · intro h
    simp [spawn_process, h]
  · intro h
    simp [spawn_process, h]

/-- Witness for C9: a disallowed signal is rejected, an allowed one spawns. -/
theorem spawn_process_signal_assertion_witness :
    spawn_process "/bin/sleep" ["1"] "HUP" = .error .assertionError
    ∧ spawn_process "/bin/sleep" ["1"] "KILL"
        = .ok ([.spawnProcess "/bin/sleep" (basename "/bin/sleep" :: ["1"])],
               GenericProcessProtocol.make "KILL") :=
  ⟨(spawn_process_signal_assertion "/bin/sleep" ["1"] "HUP").1 (by decide),
   (spawn_process_signal_assertion "/bin/sleep" ["1"] "KILL").2 (by decide)⟩

/-- Claim C10: when the process ends and was not killed, the errback fires
with a `ProcessFailed` carrying the exit code and the accumulated stderr
chunks exactly when the status is a `ProcessTerminated`, and otherwise the
callback fires with the accumulated stdout chunks; if the process was killed
(cancelled), neither fires. -/
theorem processEnded_fires (p : GenericProcessProtocol) (status : ProcStatus) :
    (p.killed = true → p.processEnded status = none)
    ∧ (p.killed = false →
        ((∃ e : ProcessFailed, p.processEnded status = some (.errback e))
          ↔ ∃ c, status = .processTerminated c)
        ∧ (∀ c, status = .processTerminated c →
            p.processEnded status
              = some (.errback { exitCode := c, stderr := p.stderr_output }))
        ∧ (status = .processDone →
            p.processEnded status = some (.callback p.stdout_output))) := by
  constructor
  · intro hk
    simp [GenericProcessProtocol.processEnded, hk]
  · intro hk
    cases status with
    | processTerminated c =>
      simp [GenericProcessProtocol.processEnded, hk]
    | processDone =>
      simp [GenericProcessProtocol.processEnded, hk]

/-- Witness for C10: a killed protocol fires nothing; a live protocol
errbacks on `ProcessTerminated` with code and stderr, and callbacks on a
normal ending with stdout. -/
theorem processEnded_fires_witness :
    GenericProcessProtocol.processEnded
      { termination_signal := "KILL", stdout_output := ["o"],
        stderr_output := ["e"], killed := true } (.processTerminated 1) = none
    ∧ GenericProcessProtocol.processEnded
        { termination_signal := "KILL", stdout_output := ["o"],
          stderr_output := ["e"], killed := false } (.processTerminated 1)
        = some (.errback { exitCode := 1, stderr := ["e"] })
    ∧ GenericProcessProtocol.processEnded
        { termination_signal := "KILL", stdout_output := ["o"],
          stderr_output := ["e"], killed := false } .processDone
        = some (.callback ["o"]) :=
  ⟨(processEnded_fires _ _).1 rfl,
   ((processEnded_fires _ _).2 rfl).2.1 1 rfl,
   ((processEnded_fires _ _).2 rfl).2.2 rfl⟩
